import Mathlib

/-!
Shallow embedding of the WonderLabs expectation-investing valuation core
(`ExpectationInvesting_Code.py`).

Numbers are modelled as exact rationals (`ℚ`).  Python exceptions are
modelled by an explicit error type: a `float` division whose denominator is
zero raises `ZeroDivisionError`, indexing `[-1]` into an empty list raises
`IndexError`, and `raise ValueError(...)` is `valueError`.  Functions that
can raise return `Except PyErr _`.  External effects (the market-data
provider, the random number generator) are passed in as explicit data: the
fetched fundamentals snapshot, the beta coefficient, and the stream of raw
normal draws consumed by the Monte Carlo loop.
-/

deriving instance DecidableEq for Except

/-- Python exceptions that the embedded code can raise. -/
inductive PyErr where
  | valueError (msg : String)
  | zeroDivisionError
  | indexError
deriving DecidableEq, Repr

/-- The configuration dictionary (module-level `config` in the source);
only the keys read by the embedded functions are typed precisely
(periods and simulation count are naturals, the terminal method a string,
the rest rationals). -/
structure Config where
  risk_free_rate : ℚ
  market_return : ℚ
  terminal_growth_rate : ℚ
  default_discount_rate : ℚ
  default_analyst_growth_rate : ℚ
  high_growth_period : ℕ
  transition_period : ℕ
  sensitivity_range : ℚ
  num_monte_carlo_sims : ℕ
  terminal_method : String
  exit_multiple : ℚ
  confidence_level : ℚ
deriving DecidableEq, Repr

/-- The module-level `config` dictionary of the source, with its default
values. -/
def defaultConfig : Config where
  risk_free_rate := 35/1000
  market_return := 95/1000
  terminal_growth_rate := 35/1000
  default_discount_rate := 11/1000
  default_analyst_growth_rate := 7/100
  high_growth_period := 8
  transition_period := 5
  sensitivity_range := 4/100
  num_monte_carlo_sims := 10000
  terminal_method := "exit_multiple"
  exit_multiple := 20
  confidence_level := 95/100

/-- The two list comprehensions at the top of `multi_stage_dcf`
(lines 86-87): revenues for years `1..high_growth_period` compound at the
high-growth rate off the base revenue; the next `transition_period` years
compound at the transition rate off `revenues[-1]`, the last high-growth
revenue.  When `transition_period = 0` the second comprehension body never
runs, so `revenues[-1]` is not evaluated; otherwise `revenues[-1]` on an
empty first phase raises `IndexError`. -/
def projectRevenues (revenue high_growth_rate transition_growth_rate : ℚ)
    (high_growth_period transition_period : ℕ) : Except PyErr (List ℚ) :=
  let revenues := (List.range high_growth_period).map
    (fun i => revenue * (1 + high_growth_rate) ^ (i + 1))
  if transition_period = 0 then .ok revenues
  else
    match revenues.getLast? with
    | none => .error .indexError
    | some lastRev =>
        .ok (revenues ++ (List.range transition_period).map
          (fun i => lastRev * (1 + transition_growth_rate) ^ (i + 1)))

/-- Line 100, `sum(fcf / (1 + discount_rate)**t for t, fcf in enumerate(fcfs, start=1))`,
unrolled as a recursion carrying the year index `t`. -/
def discountedSum (fcfs : List ℚ) (discount_rate : ℚ) (t : ℕ) : ℚ :=
  match fcfs with
  | [] => 0
  | fcf :: rest => fcf / (1 + discount_rate) ^ t + discountedSum rest discount_rate (t + 1)

/-- The terminal-value dispatch of `multi_stage_dcf` (lines 89-97):
`perpetual_growth` grows the last projected revenue one more year, applies
the FCF margin and divides by `discount_rate - terminal_growth_rate`
(raising `ZeroDivisionError` when that difference is zero);
`exit_multiple` multiplies the last projected revenue times the margin by
the configured multiple; any other method string raises `ValueError`. -/
def terminalValue (revenues : List ℚ)
    (fcf_margin discount_rate terminal_growth_rate : ℚ) (cfg : Config) :
    Except PyErr ℚ :=
  if cfg.terminal_method = "perpetual_growth" then
    match revenues.getLast? with
    | none => .error .indexError
    | some lastRev =>
        let terminal_revenue := lastRev * (1 + terminal_growth_rate)
        let terminal_fcf := terminal_revenue * fcf_margin
        if discount_rate - terminal_growth_rate = 0 then .error .zeroDivisionError
        else .ok (terminal_fcf / (discount_rate - terminal_growth_rate))
  else if cfg.terminal_method = "exit_multiple" then
    match revenues.getLast? with
    | none => .error .indexError
    | some lastRev => .ok (lastRev * fcf_margin * cfg.exit_multiple)
  else .error (.valueError "Invalid terminal method.")

/-- Function `multi_stage_dcf` (lines 81-102): project revenues, compute the terminal
value, apply the FCF margin to each projected year, discount everything and
divide by the share count.  A zero share count, or a discount rate of `-1`
(making `(1+discount_rate)**t` zero for the `t ≥ 1` used by every reachable
division), raises `ZeroDivisionError` as the Python float division does. -/
def multi_stage_dcf (revenue : ℚ) (growth_rates : ℚ × ℚ)
    (fcf_margin discount_rate terminal_growth_rate shares_outstanding : ℚ)
    (cfg : Config) : Except PyErr ℚ :=
  match projectRevenues revenue growth_rates.1 growth_rates.2
      cfg.high_growth_period cfg.transition_period with
  | .error e => .error e
  | .ok revenues =>
    match terminalValue revenues fcf_margin discount_rate terminal_growth_rate cfg with
    | .error e => .error e
    | .ok terminal_value =>
        if 1 + discount_rate = 0 then .error .zeroDivisionError
        else if shares_outstanding = 0 then .error .zeroDivisionError
        else
          let fcfs := revenues.map (fun rev => rev * fcf_margin)
          let npv := discountedSum fcfs discount_rate 1
            + terminal_value / (1 + discount_rate) ^ (cfg.high_growth_period + cfg.transition_period)
          .ok (npv / shares_outstanding)

/-- Branch lemma: with the `exit_multiple` method configured, the terminal
value is last revenue × margin × multiple (or `IndexError` on an empty
projection). -/
theorem terminalValue_of_exit_multiple (revenues : List ℚ)
    (fcf_margin discount_rate terminal_growth_rate : ℚ) (cfg : Config)
    (h : cfg.terminal_method = "exit_multiple") :
    terminalValue revenues fcf_margin discount_rate terminal_growth_rate cfg =
      match revenues.getLast? with
      | none => .error .indexError
      | some lastRev => .ok (lastRev * fcf_margin * cfg.exit_multiple) := by
  rw [terminalValue, if_neg (by rw [h]; decide), if_pos h]

/-- Branch lemma: with the `perpetual_growth` method configured, the terminal
value divides the grown last-year FCF by the rate gap, raising
`ZeroDivisionError` when the gap is zero. -/
theorem terminalValue_of_perpetual_growth (revenues : List ℚ)
    (fcf_margin discount_rate terminal_growth_rate : ℚ) (cfg : Config)
    (h : cfg.terminal_method = "perpetual_growth") :
    terminalValue revenues fcf_margin discount_rate terminal_growth_rate cfg =
      match revenues.getLast? with
      | none => .error .indexError
      | some lastRev =>
          if discount_rate - terminal_growth_rate = 0 then .error .zeroDivisionError
          else .ok (lastRev * (1 + terminal_growth_rate) * fcf_margin
            / (discount_rate - terminal_growth_rate)) := by
  rw [terminalValue, if_pos h]

/-- Branch lemma: any other method string raises `ValueError`. -/
theorem terminalValue_of_invalid (revenues : List ℚ)
    (fcf_margin discount_rate terminal_growth_rate : ℚ) (cfg : Config)
    (h1 : cfg.terminal_method ≠ "perpetual_growth")
    (h2 : cfg.terminal_method ≠ "exit_multiple") :
    terminalValue revenues fcf_margin discount_rate terminal_growth_rate cfg =
      .error (.valueError "Invalid terminal method.") := by
  rw [terminalValue, if_neg h1, if_neg h2]

/-- Function `compare_prices` (lines 122-127). -/
def compare_prices (stock_price implied_price : ℚ) : String :=
  if stock_price < implied_price * (9/10) then "Undervalued"
  else if stock_price > implied_price * (11/10) then "Overvalued"
  else "Fairly Priced"

/-- The `np.clip(x, lo, hi)` operation: clamp `x` into `[lo, hi]`. -/
def clip (x lo hi : ℚ) : ℚ := min (max x lo) hi

/-- The raw normal samples of one iteration in `monte_carlo_simulation`
(lines 107-109), before clipping: the growth-rate draw, the discount-rate
draw and the terminal-growth draw.  The random generator is external, so
the draws are data. -/
structure Draw where
  growth : ℚ
  discount : ℚ
  tgrowth : ℚ
deriving DecidableEq, Repr

/-- One loop body of `monte_carlo_simulation` (lines 107-119): clip the
three draws, run the DCF, append the price when it is positive, skip the
iteration on `ValueError` (`except ValueError: continue`), and let any
other exception escape the loop. -/
def mcStep (revenue fcf_margin discount_rate terminal_growth_rate shares_outstanding : ℚ)
    (cfg : Config) (acc : List ℚ) (d : Draw) : Except PyErr (List ℚ) :=
  let growth_rate := clip d.growth (-(2/10)) (5/10)
  let discount_rate_sim := clip d.discount (1/100) (2/10)
  let terminal_growth_rate_sim := clip d.tgrowth (1/100) (6/100)
  match multi_stage_dcf revenue (growth_rate, growth_rate * (5/10)) fcf_margin
      discount_rate_sim terminal_growth_rate_sim shares_outstanding cfg with
  | .ok price => .ok (if price > 0 then acc ++ [price] else acc)
  | .error (.valueError _) => .ok acc
  | .error e => .error e

/-- Function `monte_carlo_simulation` (lines 104-120): run the loop body for
`num_monte_carlo_sims` iterations over the draw stream, collecting the
surviving prices in order.  `stock_price` is accepted and unused, as in the
source. -/
def monte_carlo_simulation
    (stock_price revenue fcf_margin discount_rate terminal_growth_rate shares_outstanding : ℚ)
    (cfg : Config) (draws : ℕ → Draw) : Except PyErr (List ℚ) :=
  (List.range cfg.num_monte_carlo_sims).foldlM
    (fun acc i =>
      mcStep revenue fcf_margin discount_rate terminal_growth_rate shares_outstanding
        cfg acc (draws i))
    []

/-- Function `calculate_discount_rate` (lines 67-79).  The beta coefficient comes
from the external metadata record (`none` when absent, defaulting to 1);
`debt` and `market_cap` are the snapshot fields, `none` standing for NaN.
The network exception path (which would return the default discount rate)
is outside the embedded computation. -/
def calculate_discount_rate (beta? : Option ℚ) (debt market_cap : Option ℚ)
    (cfg : Config) : ℚ :=
  let beta := beta?.getD 1
  let cost_of_equity := cfg.risk_free_rate + beta * (cfg.market_return - cfg.risk_free_rate)
  let cost_of_debt := cfg.risk_free_rate
  match debt, market_cap with
  | some d, some mc =>
      if d + mc > 0 then (cost_of_equity * mc + cost_of_debt * d) / (d + mc)
      else cost_of_equity
  | _, _ => cost_of_equity

/-- The fundamentals snapshot returned by `fetch_stock_data` (line 46 on
success, line 49 on retry exhaustion): each field is `none` when it is NaN. -/
structure Snapshot where
  stock_price : Option ℚ
  revenue : Option ℚ
  free_cash_flow : Option ℚ
  shares_outstanding : Option ℚ
  debt : Option ℚ
  market_cap : Option ℚ
deriving DecidableEq, Repr

/-- The `output` dictionary built by `evaluate_stock` (lines 167-174). -/
structure Report where
  stock_price : ℚ
  mean_simulated_price : ℚ
  valuation_status : String
  revenue : ℚ
  free_cash_flow : ℚ
  fcf_margin : ℚ
deriving DecidableEq, Repr

/-- Function `evaluate_stock` (lines 129-176), with the external inputs passed as
data: the fetched snapshot, the beta coefficient used by the discount-rate
calculation, and the Monte Carlo draw stream.  Returns the
`(output, status, image path)` triple; the histogram rendering is a side
effect that does not alter the returned data. -/
def evaluate_stock (snap : Snapshot) (beta? : Option ℚ) (cfg : Config)
    (draws : ℕ → Draw) : Except PyErr (Option Report × String × Option String) :=
  match snap.stock_price, snap.revenue, snap.free_cash_flow, snap.shares_outstanding with
  | some stock_price, some revenue, some free_cash_flow, some shares_outstanding =>
    if revenue = 0 then .ok (none, "Revenue is zero", none)
    else
      let fcf_margin := free_cash_flow / revenue
      let discount_rate := calculate_discount_rate beta? snap.debt snap.market_cap cfg
      let terminal_growth_rate := cfg.terminal_growth_rate
      match monte_carlo_simulation stock_price revenue fcf_margin discount_rate
          terminal_growth_rate shares_outstanding cfg draws with
      | .error e => .error e
      | .ok simulated_prices =>
        if simulated_prices.isEmpty then .ok (none, "No valid simulations", none)
        else
          let mean_price := simulated_prices.sum / simulated_prices.length
          let valuation_status := compare_prices stock_price mean_price
          .ok (some
            { stock_price := stock_price
              mean_simulated_price := mean_price
              valuation_status := valuation_status
              revenue := revenue
              free_cash_flow := free_cash_flow
              fcf_margin := fcf_margin },
            "Success", some "valuation_plot.png")
  | _, _, _, _ => .ok (none, "Failed to fetch stock data", none)

/-- The configuration of the end-to-end scenario of the spec: two high-growth
years, one transition year, exit-multiple method with multiple 20. -/
def scenarioConfig : Config :=
  { defaultConfig with
    high_growth_period := 2
    transition_period := 1
    terminal_method := "exit_multiple"
    exit_multiple := 20 }

/-- The phrasing of the spec for the revenue projection: year `t` revenue is
`R*(1+g_high)^t` for `t = 1..H`, and the following `T` years are the year-`H`
revenue compounded at the transition rate. -/
def specProjection (R g gt : ℚ) (H T : ℕ) : List ℚ :=
  (List.range H).map (fun i => R * (1 + g) ^ (i + 1))
    ++ (List.range T).map (fun i => R * (1 + g) ^ H * (1 + gt) ^ (i + 1))

theorem specProjection_length (R g gt : ℚ) (H T : ℕ) :
    (specProjection R g gt H T).length = H + T := by
  simp [specProjection]

theorem getLast?_range_map (f : ℕ → ℚ) (H : ℕ) (hH : 1 ≤ H) :
    ((List.range H).map f).getLast? = some (f (H - 1)) := by
  obtain ⟨n, rfl⟩ := Nat.exists_eq_add_of_le hH
  rw [Nat.add_comm, List.range_succ, List.map_append]
  simp

/-- With at least one high-growth year the two comprehensions of
`multi_stage_dcf` build exactly the closed-form projection of the spec. -/
theorem projectRevenues_eq_spec (R g gt : ℚ) (H T : ℕ) (hH : 1 ≤ H) :
    projectRevenues R g gt H T = .ok (specProjection R g gt H T) := by
  unfold projectRevenues specProjection
  by_cases hT : T = 0
  · subst hT; simp
  · rw [if_neg hT, getLast?_range_map _ H hH]
    have hpow : H - 1 + 1 = H := Nat.succ_pred_eq_of_pos hH
    rw [hpow]

theorem specProjection_getLast? (R g gt : ℚ) (H T : ℕ) (hH : 1 ≤ H) :
    (specProjection R g gt H T).getLast? =
      some (if T = 0 then R * (1 + g) ^ H
        else R * (1 + g) ^ H * (1 + gt) ^ T) := by
  unfold specProjection
  by_cases hT : T = 0
  · subst hT
    rw [if_pos rfl, List.range_zero, List.map_nil, List.append_nil,
      getLast?_range_map _ H hH, Nat.sub_add_cancel hH]
  · rw [if_neg hT, List.getLast?_append_of_ne_nil,
      getLast?_range_map _ T (Nat.one_le_iff_ne_zero.mpr hT),
      Nat.sub_add_cancel (Nat.one_le_iff_ne_zero.mpr hT)]
    simpa using hT

/-- Helper: under the perpetual-growth method, equal discount and terminal
growth rates make the terminal-value denominator exactly zero, so the DCF
raises `ZeroDivisionError` (provided the projection itself is nonempty). -/
theorem multi_stage_dcf_perpetual_same_rate (revenue : ℚ) (growth_rates : ℚ × ℚ)
    (fcf_margin r shares : ℚ) (cfg : Config)
    (hm : cfg.terminal_method = "perpetual_growth")
    (hH : 1 ≤ cfg.high_growth_period) :
    multi_stage_dcf revenue growth_rates fcf_margin r r shares cfg =
      .error .zeroDivisionError := by
  have hp := projectRevenues_eq_spec revenue growth_rates.1 growth_rates.2
    cfg.high_growth_period cfg.transition_period hH
  have ht := terminalValue_of_perpetual_growth
    (specProjection revenue growth_rates.1 growth_rates.2
      cfg.high_growth_period cfg.transition_period) fcf_margin r r cfg hm
  rw [specProjection_getLast? _ _ _ _ _ hH] at ht
  simp only [sub_self, if_pos] at ht
  simp only [multi_stage_dcf, hp, ht]

/-- Helper: an unrecognized terminal-method string makes `multi_stage_dcf`
raise `ValueError` (provided the projection itself is nonempty). -/
theorem multi_stage_dcf_invalid_method (revenue : ℚ) (growth_rates : ℚ × ℚ)
    (fcf_margin d tg shares : ℚ) (cfg : Config)
    (h1 : cfg.terminal_method ≠ "perpetual_growth")
    (h2 : cfg.terminal_method ≠ "exit_multiple")
    (hH : 1 ≤ cfg.high_growth_period) :
    multi_stage_dcf revenue growth_rates fcf_margin d tg shares cfg =
      .error (.valueError "Invalid terminal method.") := by
  have hp := projectRevenues_eq_spec revenue growth_rates.1 growth_rates.2
    cfg.high_growth_period cfg.transition_period hH
  simp only [multi_stage_dcf, hp, terminalValue_of_invalid _ _ _ _ _ h1 h2]

/-- C1: on the end-to-end scenario of the spec (revenue 1000, growth rates
(0.10, 0.05), FCF margin 0.2, discount rate 0.10, two high-growth years and
one transition year, exit-multiple 20, 100 shares) `multi_stage_dcf`
returns exactly the hand-computed per-share value: FCFs 220, 242 and 254.1
discounted at `1.1^t`, plus the terminal value `1270.5 * 0.2 * 20 = 5082`
discounted at `1.1^3`, divided by 100. -/
theorem multi_stage_dcf_scenario :
    multi_stage_dcf 1000 (1/10, 1/20) (1/5) (1/10) (35/1000) 100 scenarioConfig
      = .ok ((220 / (11/10) ^ 1 + 242 / (11/10) ^ 2 + (2541/10) / (11/10) ^ 3
          + 5082 / (11/10) ^ 3) / 100) := by
  norm_num [multi_stage_dcf, projectRevenues, terminalValue_of_exit_multiple,
    discountedSum, scenarioConfig, defaultConfig, List.range_succ]

/-- Helper: the perpetual-growth terminal value once the last projected
revenue is known. -/
theorem terminalValue_perpetual_of_last (revenues : List ℚ) (lastRev m d tg : ℚ)
    (cfg : Config) (hm : cfg.terminal_method = "perpetual_growth")
    (hl : revenues.getLast? = some lastRev) :
    terminalValue revenues m d tg cfg =
      if d - tg = 0 then .error .zeroDivisionError
      else .ok (lastRev * (1 + tg) * m / (d - tg)) := by
  rw [terminalValue, if_pos hm, hl]

/-- Helper: the exit-multiple terminal value once the last projected revenue
is known. -/
theorem terminalValue_exit_of_last (revenues : List ℚ) (lastRev m d tg : ℚ)
    (cfg : Config) (hm : cfg.terminal_method = "exit_multiple")
    (hl : revenues.getLast? = some lastRev) :
    terminalValue revenues m d tg cfg = .ok (lastRev * m * cfg.exit_multiple) := by
  rw [terminalValue, if_neg (by rw [hm]; decide), if_pos hm, hl]

/-- Helper: on an empty projection every terminal-value branch raises. -/
theorem terminalValue_nil (m d tg : ℚ) (cfg : Config) :
    ∃ e, terminalValue [] m d tg cfg = .error e := by
  unfold terminalValue
  split_ifs <;> exact ⟨_, rfl⟩

/-- A perpetual-growth configuration with two high-growth years and one
transition year. -/
def perpetualConfig : Config :=
  { defaultConfig with
    high_growth_period := 2
    transition_period := 1
    terminal_method := "perpetual_growth" }

/-- C2 counterexample: under the perpetual-growth method with discount rate
0.03 strictly below the terminal growth rate 0.05, `multi_stage_dcf`
signals no error at all: it returns the finite per-share value
-11880/103. -/
theorem multi_stage_dcf_below_terminal_growth_finite :
    multi_stage_dcf 1000 (1/10, 1/20) (1/5) (3/100) (1/20) 100 perpetualConfig
      = .ok (-11880/103) := by
  norm_num [multi_stage_dcf, projectRevenues, terminalValue_of_perpetual_growth,
    discountedSum, perpetualConfig, defaultConfig, List.range_succ]

/-- C2 (amended): under the perpetual-growth method the code signals an
error only when the discount rate equals the terminal growth rate: the
terminal-value denominator is then exactly zero and the call raises
`ZeroDivisionError` (for a configuration with at least one high-growth
year); a discount rate strictly below the terminal growth rate returns a
finite value. -/
theorem multi_stage_dcf_equal_rates_zero_division (revenue : ℚ)
    (growth_rates : ℚ × ℚ) (fcf_margin r shares : ℚ) (cfg : Config)
    (hm : cfg.terminal_method = "perpetual_growth")
    (hH : 1 ≤ cfg.high_growth_period) :
    multi_stage_dcf revenue growth_rates fcf_margin r r shares cfg =
      .error .zeroDivisionError :=
  multi_stage_dcf_perpetual_same_rate revenue growth_rates fcf_margin r shares cfg hm hH

theorem multi_stage_dcf_equal_rates_zero_division_witness :
    perpetualConfig.terminal_method = "perpetual_growth" ∧
    1 ≤ perpetualConfig.high_growth_period ∧
    multi_stage_dcf 1000 (1/10, 1/20) (1/5) (1/20) (1/20) 100 perpetualConfig =
      .error .zeroDivisionError :=
  ⟨rfl, by decide,
    multi_stage_dcf_equal_rates_zero_division 1000 (1/10, 1/20) (1/5) (1/20) 100
      perpetualConfig rfl (by decide)⟩

/-- A configuration with no high-growth years and one transition year. -/
def zeroHighConfig : Config :=
  { defaultConfig with
    high_growth_period := 0
    transition_period := 1 }

/-- C4 counterexample: with zero high-growth years and one transition year
no projection is produced at all — `revenues[-1]` on the empty high-growth
list raises `IndexError` — instead of the claimed one-entry geometric
sequence. -/
theorem multi_stage_dcf_zero_high_growth_raises :
    multi_stage_dcf 1000 (1/10, 1/20) (1/5) (1/10) (35/1000) 100 zeroHighConfig
      = .error .indexError := by
  norm_num [multi_stage_dcf, projectRevenues, zeroHighConfig, defaultConfig]

/-- C4 (amended): whenever the high-growth phase has at least one year, the
projection built inside `multi_stage_dcf` is exactly the geometric
compounding sequence with a rolling base per phase — year `t` is
`R*(1+g_high)^t` for `t = 1..H` and year `H+s` is
`R*(1+g_high)^H*(1+g_trans)^s` for `s = 1..T` — with exactly `H+T`
entries; with `H = 0` and `T ≥ 1` the code raises `IndexError` instead. -/
theorem projectRevenues_geometric (R g gt : ℚ) (H T : ℕ) (hH : 1 ≤ H) :
    projectRevenues R g gt H T = .ok (specProjection R g gt H T) ∧
    (specProjection R g gt H T).length = H + T :=
  ⟨projectRevenues_eq_spec R g gt H T hH, specProjection_length R g gt H T⟩

theorem projectRevenues_geometric_witness :
    1 ≤ 2 ∧
    (projectRevenues 1000 (1/10) (1/20) 2 1 = .ok (specProjection 1000 (1/10) (1/20) 2 1) ∧
     (specProjection 1000 (1/10) (1/20) 2 1).length = 2 + 1) :=
  ⟨by decide, projectRevenues_geometric 1000 (1/10) (1/20) 2 1 (by decide)⟩

/-- Helper: a fold whose step always succeeds with an unchanged accumulator
returns the initial accumulator. -/
theorem foldlM_ok_of_step_id {α : Type} (l : List α)
    (f : List ℚ → α → Except PyErr (List ℚ))
    (hf : ∀ acc a, f acc a = .ok acc) (init : List ℚ) :
    l.foldlM f init = .ok init := by
  induction l generalizing init with
  | nil => rfl
  | cons a l ih => rw [List.foldlM_cons, hf]; exact ih init

/-- C3 (amended): only `ValueError` is caught by the Monte Carlo loop: with
an unrecognized terminal-value method (and at least one high-growth year)
every trial raises `ValueError`, is discarded silently, and the driver
finishes all its iterations returning the empty price list; a
`ZeroDivisionError` raised by a trial (perpetual growth with the perturbed
discount rate equal to the perturbed terminal growth rate) is not caught
and propagates out of the driver. -/
theorem monte_carlo_invalid_method_discards
    (sp revenue fcf_margin d tg shares : ℚ) (cfg : Config) (draws : ℕ → Draw)
    (h1 : cfg.terminal_method ≠ "perpetual_growth")
    (h2 : cfg.terminal_method ≠ "exit_multiple")
    (hH : 1 ≤ cfg.high_growth_period) :
    monte_carlo_simulation sp revenue fcf_margin d tg shares cfg draws = .ok [] := by
  unfold monte_carlo_simulation
  refine foldlM_ok_of_step_id _ _ (fun acc i => ?_) []
  unfold mcStep
  simp only [multi_stage_dcf_invalid_method _ _ _ _ _ _ _ h1 h2 hH]

/-- An unrecognized-terminal-method configuration running three trials. -/
def invalidMethodConfig : Config :=
  { defaultConfig with
    terminal_method := "unknown"
    num_monte_carlo_sims := 3 }

/-- The degenerate draw stream: every raw normal sample is far below the
clipping floors, so in each trial the perturbed discount rate and perturbed
terminal growth rate are both clipped up to 0.01. -/
def floorDraws : ℕ → Draw := fun _ => ⟨1/20, 0, 0⟩

theorem monte_carlo_invalid_method_discards_witness :
    invalidMethodConfig.terminal_method ≠ "perpetual_growth" ∧
    invalidMethodConfig.terminal_method ≠ "exit_multiple" ∧
    1 ≤ invalidMethodConfig.high_growth_period ∧
    monte_carlo_simulation 50 1000 (1/5) (1/10) (35/1000) 100
      invalidMethodConfig floorDraws = .ok [] :=
  ⟨by decide, by decide, by decide,
    monte_carlo_invalid_method_discards 50 1000 (1/5) (1/10) (35/1000) 100
      invalidMethodConfig floorDraws (by decide) (by decide) (by decide)⟩

/-- A perpetual-growth configuration running a single trial. -/
def perpOneSimConfig : Config :=
  { defaultConfig with
    high_growth_period := 2
    transition_period := 1
    terminal_method := "perpetual_growth"
    num_monte_carlo_sims := 1 }

/-- C3 counterexample: a trial whose raw draws clip the perturbed discount
rate and the perturbed terminal growth rate both to the floor 0.01 makes
the DCF engine raise `ZeroDivisionError` under the perpetual-growth method,
and `except ValueError` does not catch it: the error propagates out of
`monte_carlo_simulation` instead of the trial being discarded silently. -/
theorem monte_carlo_zero_division_propagates :
    monte_carlo_simulation 50 1000 (1/5) (1/10) (35/1000) 100
      perpOneSimConfig floorDraws = .error .zeroDivisionError := by
  norm_num [monte_carlo_simulation, mcStep, clip, floorDraws, multi_stage_dcf,
    projectRevenues, terminalValue_of_perpetual_growth, perpOneSimConfig,
    defaultConfig, List.range_succ]

/-- C6: against a nonnegative mean simulated price, the classifier returns
Undervalued exactly when the price is strictly below 90% of the mean,
Overvalued exactly when strictly above 110% of the mean, and Fairly Priced
otherwise; both thresholds themselves classify as not-Undervalued and
not-Overvalued respectively, and a price equal to the mean is Fairly
Priced. -/
theorem compare_prices_spec (p m : ℚ) (hm : 0 ≤ m) :
    (compare_prices p m = "Undervalued" ↔ p < m * (9/10)) ∧
    (compare_prices p m = "Overvalued" ↔ m * (11/10) < p) ∧
    (compare_prices p m = "Fairly Priced" ↔ (m * (9/10) ≤ p ∧ p ≤ m * (11/10))) ∧
    compare_prices (m * (9/10)) m ≠ "Undervalued" ∧
    compare_prices (m * (11/10)) m ≠ "Overvalued" ∧
    compare_prices m m = "Fairly Priced" := by
  have hle : m * (9/10) ≤ m * (11/10) := by nlinarith
  have h9 : m * (9/10) ≤ m := by nlinarith
  have h11 : m ≤ m * (11/10) := by nlinarith
  unfold compare_prices
  refine ⟨?_, ?_, ?_, ?_, ?_, ?_⟩ <;>
    split_ifs <;> simp_all <;> linarith

theorem compare_prices_spec_witness :
    0 ≤ (2:ℚ) ∧
    ((compare_prices 1 2 = "Undervalued" ↔ (1:ℚ) < 2 * (9/10)) ∧
     (compare_prices 1 2 = "Overvalued" ↔ (2:ℚ) * (11/10) < 1) ∧
     (compare_prices 1 2 = "Fairly Priced" ↔ ((2:ℚ) * (9/10) ≤ 1 ∧ (1:ℚ) ≤ 2 * (11/10))) ∧
     compare_prices (2 * (9/10)) 2 ≠ "Undervalued" ∧
     compare_prices (2 * (11/10)) 2 ≠ "Overvalued" ∧
     compare_prices 2 2 = "Fairly Priced") :=
  ⟨by norm_num, compare_prices_spec 1 2 (by norm_num)⟩

/-- Helper: every outcome of `evaluate_stock` is a propagated per-trial
exception or one of the four `(record, status, image)` shapes the source
can return. -/
theorem evaluate_stock_shapes (snap : Snapshot) (beta? : Option ℚ)
    (cfg : Config) (draws : ℕ → Draw) :
    (∃ e, evaluate_stock snap beta? cfg draws = .error e) ∨
    evaluate_stock snap beta? cfg draws = .ok (none, "Failed to fetch stock data", none) ∨
    evaluate_stock snap beta? cfg draws = .ok (none, "Revenue is zero", none) ∨
    evaluate_stock snap beta? cfg draws = .ok (none, "No valid simulations", none) ∨
    (∃ rep, evaluate_stock snap beta? cfg draws
      = .ok (some rep, "Success", some "valuation_plot.png")) := by
  obtain ⟨sp, rev, fcf, sh, debt, mc⟩ := snap
  rcases sp with _ | sp
  · right; left; rfl
  rcases rev with _ | rev
  · right; left; rfl
  rcases fcf with _ | fcf
  · right; left; rfl
  rcases sh with _ | sh
  · right; left; rfl
  by_cases h0 : rev = 0
  · right; right; left; simp [evaluate_stock, h0]
  rcases hmc : monte_carlo_simulation sp rev (fcf / rev)
      (calculate_discount_rate beta? debt mc cfg) cfg.terminal_growth_rate sh cfg draws
    with e | l
  · left; exact ⟨e, by simp [evaluate_stock, h0, hmc]⟩
  rcases l with _ | ⟨p, l⟩
  · right; right; right; left; simp [evaluate_stock, h0, hmc]
  · right; right; right; right
    refine ⟨{ stock_price := sp
              mean_simulated_price := (p :: l).sum / ((p :: l).length : ℚ)
              valuation_status := compare_prices sp ((p :: l).sum / ((p :: l).length : ℚ))
              revenue := rev
              free_cash_flow := fcf
              fcf_margin := fcf / rev }, ?_⟩
    simp [evaluate_stock, h0, hmc]

/-- Helper: once the four checked fields (price, revenue, free cash flow,
shares) are all present, `evaluate_stock` never returns the
"Failed to fetch stock data" status. -/
theorem evaluate_stock_some_ne_failed (sp rev fcf sh : ℚ)
    (debt mc beta? : Option ℚ) (cfg : Config) (draws : ℕ → Draw) :
    evaluate_stock ⟨some sp, some rev, some fcf, some sh, debt, mc⟩ beta? cfg draws
      ≠ .ok (none, "Failed to fetch stock data", none) := by
  simp only [evaluate_stock]
  split_ifs with h0
  · simp
  · split
    · simp
    · split_ifs <;> simp

/-- A snapshot whose market capitalization is missing (NaN) while every
other field is present. -/
def marketCapMissingSnap : Snapshot :=
  ⟨some 50, some 1000, some 200, some 100, some 0, none⟩

/-- The default configuration with the trial count set to zero. -/
def zeroSimsConfig : Config :=
  { defaultConfig with num_monte_carlo_sims := 0 }

/-- C5 counterexample: a missing market capitalization does not invalidate
the snapshot: `evaluate_stock` proceeds past the fetch check (here, under a
zero-trial configuration, to the "No valid simulations" outcome) rather
than returning the "Failed to fetch stock data" status. -/
theorem evaluate_stock_missing_market_cap_proceeds :
    evaluate_stock marketCapMissingSnap (some 1) zeroSimsConfig (fun _ => ⟨0, 0, 0⟩)
      = .ok (none, "No valid simulations", none) ∧
    evaluate_stock marketCapMissingSnap (some 1) zeroSimsConfig (fun _ => ⟨0, 0, 0⟩)
      ≠ .ok (none, "Failed to fetch stock data", none) := by
  have h : evaluate_stock marketCapMissingSnap (some 1) zeroSimsConfig (fun _ => ⟨0, 0, 0⟩)
      = .ok (none, "No valid simulations", none) := by
    norm_num [evaluate_stock, monte_carlo_simulation, marketCapMissingSnap,
      zeroSimsConfig, defaultConfig, pure, Except.pure]
  exact ⟨h, by rw [h]; simp⟩

/-- C5 (amended): the all-or-nothing invalidation covers exactly the four
fields checked by `evaluate_stock` — stock price, revenue, free cash flow
and shares outstanding: the evaluation reports "Failed to fetch stock data"
with no report record precisely when one of those four is missing, while a
missing total debt or market capitalization is tolerated (debt defaults to
0 in the fetch and the discount-rate blend falls back to the cost of
equity). -/
theorem evaluate_stock_failed_iff (snap : Snapshot) (beta? : Option ℚ)
    (cfg : Config) (draws : ℕ → Draw) :
    evaluate_stock snap beta? cfg draws = .ok (none, "Failed to fetch stock data", none) ↔
      (snap.stock_price = none ∨ snap.revenue = none ∨
       snap.free_cash_flow = none ∨ snap.shares_outstanding = none) := by
  obtain ⟨sp, rev, fcf, sh, debt, mc⟩ := snap
  rcases sp with _ | sp
  · simp [evaluate_stock]
  rcases rev with _ | rev
  · simp [evaluate_stock]
  rcases fcf with _ | fcf
  · simp [evaluate_stock]
  rcases sh with _ | sh
  · simp [evaluate_stock]
  simp only [Option.some_ne_none, or_self, iff_false]
  exact evaluate_stock_some_ne_failed sp rev fcf sh debt mc beta? cfg draws

/-- C7: a present-but-zero revenue short-circuits the evaluation to the
"Revenue is zero" status with no report record and no image, for every
configuration, beta, debt, market cap and draw stream — before the
FCF-margin division, the discount-rate calculation or any Monte Carlo
trial can contribute to the result. -/
theorem evaluate_stock_zero_revenue (sp fcf sh : ℚ) (debt mc beta? : Option ℚ)
    (cfg : Config) (draws : ℕ → Draw) :
    evaluate_stock ⟨some sp, some 0, some fcf, some sh, debt, mc⟩ beta? cfg draws
      = .ok (none, "Revenue is zero", none) := by
  simp [evaluate_stock]

/-- C8: whenever the Monte Carlo simulation returns the empty price list,
`evaluate_stock` returns the "No valid simulations" status with no report
record and no image. -/
theorem evaluate_stock_no_valid_sims (sp rev fcf sh : ℚ)
    (debt mc beta? : Option ℚ) (cfg : Config) (draws : ℕ → Draw)
    (hrev : rev ≠ 0)
    (hmc : monte_carlo_simulation sp rev (fcf / rev)
      (calculate_discount_rate beta? debt mc cfg) cfg.terminal_growth_rate sh cfg draws
      = .ok []) :
    evaluate_stock ⟨some sp, some rev, some fcf, some sh, debt, mc⟩ beta? cfg draws
      = .ok (none, "No valid simulations", none) := by
  simp [evaluate_stock, hrev, hmc]

theorem evaluate_stock_no_valid_sims_witness :
    (1000 : ℚ) ≠ 0 ∧
    monte_carlo_simulation 50 1000 ((200 : ℚ) / 1000)
      (calculate_discount_rate (some 1) (some 0) (some 1) zeroSimsConfig)
      zeroSimsConfig.terminal_growth_rate 100 zeroSimsConfig (fun _ => ⟨0, 0, 0⟩)
      = .ok [] ∧
    evaluate_stock ⟨some 50, some 1000, some 200, some 100, some 0, some 1⟩
      (some 1) zeroSimsConfig (fun _ => ⟨0, 0, 0⟩)
      = .ok (none, "No valid simulations", none) :=
  ⟨by norm_num, rfl,
    evaluate_stock_no_valid_sims 50 1000 200 100 (some 0) (some 1) (some 1)
      zeroSimsConfig (fun _ => ⟨0, 0, 0⟩) (by norm_num) rfl⟩

/-- C10: whatever triple `evaluate_stock` returns, the report record and the
image path are present exactly when the status string is "Success"; every
failure status comes with neither. -/
theorem evaluate_stock_report_iff_success (snap : Snapshot) (beta? : Option ℚ)
    (cfg : Config) (draws : ℕ → Draw) (rec : Option Report) (status : String)
    (img : Option String)
    (h : evaluate_stock snap beta? cfg draws = .ok (rec, status, img)) :
    (rec.isSome ↔ status = "Success") ∧ (img.isSome ↔ status = "Success") := by
  obtain ⟨e, he⟩ | he | he | he | ⟨rep, he⟩ := evaluate_stock_shapes snap beta? cfg draws <;>
    rw [he] at h
  · cases h
  all_goals
    simp only [Except.ok.injEq, Prod.mk.injEq] at h
    obtain ⟨h1, h2, h3⟩ := h
    subst h1; subst h2; subst h3
    simp

def zeroRevenueSnap : Snapshot := ⟨some 50, some 0, some 200, some 100, some 0, some 1⟩

theorem evaluate_stock_report_iff_success_witness :
    ((none : Option Report).isSome ↔ "Revenue is zero" = "Success") ∧
    ((none : Option String).isSome ↔ "Revenue is zero" = "Success") :=
  evaluate_stock_report_iff_success zeroRevenueSnap (some 1) defaultConfig
    (fun _ => ⟨0, 0, 0⟩) none "Revenue is zero" none (by simp [evaluate_stock, zeroRevenueSnap])

/-- Helper: the discounted sum scales linearly in the cash flows. -/
theorem discountedSum_map_mul (l : List ℚ) (k d : ℚ) (t : ℕ) :
    discountedSum (l.map (fun x => k * x)) d t = k * discountedSum l d t := by
  induction l generalizing t with
  | nil => simp [discountedSum]
  | cons a l ih => simp [discountedSum, ih, mul_add, mul_div_assoc]

/-- Helper: the projection scales linearly in the base revenue. -/
theorem specProjection_smul (k R g gt : ℚ) (H T : ℕ) :
    specProjection (k * R) g gt H T = (specProjection R g gt H T).map (fun x => k * x) := by
  unfold specProjection
  simp [List.map_map, Function.comp_def, mul_assoc]

/-- Helper: with no high-growth years `multi_stage_dcf` always raises —
`IndexError` from the transition comprehension or from the terminal-value
lookup, or `ValueError` from an invalid method — never returning a value. -/
theorem multi_stage_dcf_zero_high_isError (revenue : ℚ) (growth_rates : ℚ × ℚ)
    (fcf_margin d tg shares : ℚ) (cfg : Config)
    (hH : cfg.high_growth_period = 0) :
    ∃ e, multi_stage_dcf revenue growth_rates fcf_margin d tg shares cfg = .error e := by
  by_cases hT : cfg.transition_period = 0
  · have hp : projectRevenues revenue growth_rates.1 growth_rates.2
        cfg.high_growth_period cfg.transition_period = .ok [] := by
      unfold projectRevenues
      rw [hH, hT]
      simp
    obtain ⟨e, he⟩ := terminalValue_nil fcf_margin d tg cfg
    exact ⟨e, by simp only [multi_stage_dcf, hp, he]⟩
  · have hp : projectRevenues revenue growth_rates.1 growth_rates.2
        cfg.high_growth_period cfg.transition_period = .error .indexError := by
      unfold projectRevenues
      rw [hH, if_neg hT]
      simp
    exact ⟨.indexError, by simp only [multi_stage_dcf, hp]⟩

/-- C9: `multi_stage_dcf` is homogeneous of degree 1 in the base revenue:
whenever it returns a per-share value at all, scaling the base revenue by a
positive factor `k` scales every projected revenue, FCF and terminal value,
and hence the returned per-share value, by the same `k`. -/
theorem multi_stage_dcf_homogeneous (k revenue : ℚ) (growth_rates : ℚ × ℚ)
    (fcf_margin d tg shares v : ℚ) (cfg : Config) (hk : 0 < k)
    (h : multi_stage_dcf revenue growth_rates fcf_margin d tg shares cfg = .ok v) :
    multi_stage_dcf (k * revenue) growth_rates fcf_margin d tg shares cfg = .ok (k * v) := by
  have hH : 1 ≤ cfg.high_growth_period := by
    rcases Nat.eq_zero_or_pos cfg.high_growth_period with h0 | hpos
    · obtain ⟨e, he⟩ := multi_stage_dcf_zero_high_isError revenue growth_rates
        fcf_margin d tg shares cfg h0
      rw [he] at h
      cases h
    · exact hpos
  have hp := projectRevenues_eq_spec revenue growth_rates.1 growth_rates.2
    cfg.high_growth_period cfg.transition_period hH
  have hp' := projectRevenues_eq_spec (k * revenue) growth_rates.1 growth_rates.2
    cfg.high_growth_period cfg.transition_period hH
  rw [specProjection_smul] at hp'
  obtain ⟨lr, hlr⟩ : ∃ x, (specProjection revenue growth_rates.1 growth_rates.2
      cfg.high_growth_period cfg.transition_period).getLast? = some x :=
    ⟨_, specProjection_getLast? revenue growth_rates.1 growth_rates.2
      cfg.high_growth_period cfg.transition_period hH⟩
  have hlr' : ((specProjection revenue growth_rates.1 growth_rates.2
      cfg.high_growth_period cfg.transition_period).map (fun x => k * x)).getLast?
      = some (k * lr) := by
    rw [List.getLast?_map, hlr]
    rfl
  have hmap : ((specProjection revenue growth_rates.1 growth_rates.2
        cfg.high_growth_period cfg.transition_period).map (fun x => k * x)).map
        (fun rev => rev * fcf_margin)
      = ((specProjection revenue growth_rates.1 growth_rates.2
        cfg.high_growth_period cfg.transition_period).map (fun rev => rev * fcf_margin)).map
        (fun x => k * x) := by
    simp only [List.map_map, Function.comp_def]
    congr 1
    funext x
    ring
  by_cases hm1 : cfg.terminal_method = "perpetual_growth"
  · have ht := terminalValue_perpetual_of_last _ lr fcf_margin d tg cfg hm1 hlr
    have ht' := terminalValue_perpetual_of_last _ (k * lr) fcf_margin d tg cfg hm1 hlr'
    by_cases hd : d - tg = 0
    · rw [if_pos hd] at ht
      simp only [multi_stage_dcf, hp, ht] at h
      cases h
    · rw [if_neg hd] at ht ht'
      simp only [multi_stage_dcf, hp, ht] at h
      by_cases h1d : 1 + d = 0
      · rw [if_pos h1d] at h; cases h
      rw [if_neg h1d] at h
      by_cases hsh : shares = 0
      · rw [if_pos hsh] at h; cases h
      rw [if_neg hsh] at h
      simp only [Except.ok.injEq] at h
      simp only [multi_stage_dcf, hp', ht', if_neg h1d, if_neg hsh, Except.ok.injEq]
      rw [hmap, discountedSum_map_mul, ← h]
      ring
  · by_cases hm2 : cfg.terminal_method = "exit_multiple"
    · have ht := terminalValue_exit_of_last _ lr fcf_margin d tg cfg hm2 hlr
      have ht' := terminalValue_exit_of_last _ (k * lr) fcf_margin d tg cfg hm2 hlr'
      simp only [multi_stage_dcf, hp, ht] at h
      by_cases h1d : 1 + d = 0
      · rw [if_pos h1d] at h; cases h
      rw [if_neg h1d] at h
      by_cases hsh : shares = 0
      · rw [if_pos hsh] at h; cases h
      rw [if_neg hsh] at h
      simp only [Except.ok.injEq] at h
      simp only [multi_stage_dcf, hp', ht', if_neg h1d, if_neg hsh, Except.ok.injEq]
      rw [hmap, discountedSum_map_mul, ← h]
      ring
    · have ht := terminalValue_of_invalid
        (specProjection revenue growth_rates.1 growth_rates.2
          cfg.high_growth_period cfg.transition_period) fcf_margin d tg cfg hm1 hm2
      simp only [multi_stage_dcf, hp, ht] at h
      cases h

theorem multi_stage_dcf_homogeneous_witness :
    (0:ℚ) < 2 ∧
    multi_stage_dcf 1000 (1/10, 1/20) (1/5) (1/10) (35/1000) 100 scenarioConfig
      = .ok (485/11) ∧
    multi_stage_dcf (2 * 1000) (1/10, 1/20) (1/5) (1/10) (35/1000) 100 scenarioConfig
      = .ok (2 * (485/11)) := by
  refine ⟨by norm_num, ?_, ?_⟩
  · norm_num [multi_stage_dcf, projectRevenues, terminalValue_of_exit_multiple,
      discountedSum, scenarioConfig, defaultConfig, List.range_succ]
  · exact multi_stage_dcf_homogeneous 2 1000 (1/10, 1/20) (1/5) (1/10) (35/1000)
      100 (485/11) scenarioConfig (by norm_num)
      (by norm_num [multi_stage_dcf, projectRevenues, terminalValue_of_exit_multiple,
        discountedSum, scenarioConfig, defaultConfig, List.range_succ])
